import Mathlib

/-!
# Verification of the practice-session state machine and scoring engine

Shallow embedding of the session reducer and scoring code of the exam-practice
application (`src/contexts/PracticeContext.tsx`, `src/types/questions.ts`,
`src/app/practice/page.tsx`).

Modelling conventions:
* JavaScript `Date` values are modelled as natural-number timestamps; every
  call to `new Date()` / `Date.now()` in the source reads the `now` field of an
  explicit `ReducerEnv` parameter.
* `Math.random()`-driven choices are modelled by explicit choice functions in
  `ReducerEnv` (`randQ` for the question shuffle, `randO k` for the option
  shuffle of the `k`-th question); at loop index `i` the source computes
  `Math.floor(Math.random() * (i + 1))`, a value in `[0, i]`.
* JavaScript numbers used as integers are `Nat`/`Int`; `minutesPerQuestion`
  (a decimal such as 2.25) is modelled as `ℚ`, with `Math.ceil` = `Int.ceil`
  and `Math.round` = `round` (both round halves up on the values arising here,
  exactly as JS does).
-/

/-- JavaScript `Date`, abstracted to a timestamp. -/
abbrev JsDate := Nat

/-- `QuestionOption` from `types/questions.ts`. -/
structure QuestionOption where
  id : String
  text : String
  isCorrect : Bool
deriving Repr, DecidableEq

/-- `metadata` field of `Question` from `types/questions.ts`. -/
inductive Difficulty where
  | easy | medium | hard
deriving Repr, DecidableEq

structure QuestionMetadata where
  difficulty : Difficulty
  estimatedTime : Nat
  tags : List String
deriving Repr, DecidableEq

/-- `Question` from `types/questions.ts`. -/
structure Question where
  id : Nat
  questionNumber : Nat
  topic : String
  question : String
  note : Option String
  options : List QuestionOption
  correctAnswers : List String
  metadata : QuestionMetadata
deriving Repr, DecidableEq

/-- `UserAnswer` from `types/questions.ts`. -/
structure UserAnswer where
  questionId : Nat
  selectedAnswers : List String
  isCorrect : Bool
  timeSpent : Nat
  attempts : Nat
deriving Repr, DecidableEq

/-- `SessionConfiguration` from `types/questions.ts`. -/
structure SessionConfiguration where
  selectedTopics : List String
  shuffleEnabled : Bool
  shuffleOptions : Bool
  timeLimit : Option Nat
  autoAdvance : Bool
  showFeedback : Bool
  timerEnabled : Bool
  minutesPerQuestion : ℚ
deriving Repr, DecidableEq

/-- `QuestionResult` from `types/questions.ts`. -/
structure QuestionResult where
  questionId : Nat
  selectedAnswers : List String
  correctAnswers : List String
  isCorrect : Bool
  timeSpent : Nat
  attempts : Nat
deriving Repr, DecidableEq

/-- `TopicResult` from `types/questions.ts` (`score` is a rounded percentage). -/
structure TopicResult where
  topic : String
  totalQuestions : Nat
  correctAnswers : Nat
  score : Int
deriving Repr, DecidableEq

/-- `SessionResults` from `types/questions.ts`. -/
structure SessionResults where
  totalQuestions : Nat
  correctAnswers : Nat
  score : Int
  timeSpent : Nat
  topicResults : List TopicResult
  questionResults : List QuestionResult
deriving Repr, DecidableEq

/-- `SessionProgress` from `types/questions.ts`. -/
structure SessionProgress where
  currentQuestionIndex : Nat
  answeredQuestions : Nat
  correctAnswers : Nat
  timeSpent : Nat
  questionResults : List QuestionResult
deriving Repr, DecidableEq

inductive SessionMode where
  | practice | exam | review
deriving Repr, DecidableEq

/-- `timer` field of `PracticeSession` from `types/questions.ts`. -/
structure SessionTimer where
  totalTimeAllowed : Int
  timeRemaining : Int
  isActive : Bool
  questionStartTime : JsDate
deriving Repr, DecidableEq

/-- `PracticeSession` from `types/questions.ts`. -/
structure PracticeSession where
  id : String
  startTime : JsDate
  endTime : Option JsDate
  mode : SessionMode
  configuration : SessionConfiguration
  progress : SessionProgress
  results : Option SessionResults
  timer : SessionTimer
deriving Repr, DecidableEq

/-- `TopicInfo` from `types/questions.ts`. -/
structure TopicInfo where
  name : String
  questionCount : Nat
  description : Option String
deriving Repr, DecidableEq

inductive Theme where
  | light | dark
deriving Repr, DecidableEq

/-- `questions` sub-state of `PracticeContextState`. -/
structure QuestionsState where
  original : List Question
  current : List Question
  currentIndex : Nat
  totalCount : Nat
deriving Repr, DecidableEq

/-- `answers` sub-state of `PracticeContextState`. -/
structure AnswersState where
  submitted : List UserAnswer
  current : List String
  isSubmitted : Bool
deriving Repr, DecidableEq

/-- `ui` sub-state of `PracticeContextState`. -/
structure UiState where
  showResults : Bool
  isLoading : Bool
  theme : Theme
deriving Repr, DecidableEq

/-- `PracticeContextState` from `types/questions.ts`. -/
structure PracticeContextState where
  session : Option PracticeSession
  questions : QuestionsState
  answers : AnswersState
  ui : UiState
  topics : List TopicInfo
deriving Repr, DecidableEq

/-- `initialState` from `PracticeContext.tsx`. -/
def initialState : PracticeContextState :=
  { session := none
    questions := { original := [], current := [], currentIndex := 0, totalCount := 0 }
    answers := { submitted := [], current := [], isSubmitted := false }
    ui := { showResults := false, isLoading := false, theme := .light }
    topics := [] }

/-- `PracticeAction` from `types/questions.ts`.  `START_SESSION` carries its
payload `{configuration, questions}`. -/
inductive PracticeAction where
  | START_SESSION (configuration : SessionConfiguration) (questions : List Question)
  | ANSWER_QUESTION (answers : List String)
  | NEXT_QUESTION
  | PREVIOUS_QUESTION
  | SUBMIT_ANSWER
  | FINISH_SESSION
  | RESET_SESSION
  | SET_LOADING (payload : Bool)
  | SHOW_RESULTS (payload : Bool)
  | SET_THEME (payload : Theme)
  | UPDATE_TIMER (timeRemaining : Int)
  | PAUSE_TIMER
  | RESUME_TIMER
  | END_EXAM_EARLY

/-- Ambient effects read by the reducer: `new Date()` (`now`), the generated
session id (`sid`, cf. `generateSessionId`), and the `Math.random` draws
consumed by the two shuffles (`randQ` for questions, `randO k` for the options
of the `k`-th question; `rand i` models `Math.floor(Math.random() * (i + 1))`
at Fisher–Yates loop index `i`, always a value in `[0, i]`). -/
structure ReducerEnv where
  now : JsDate
  sid : String
  randQ : Nat → Nat
  randO : Nat → Nat → Nat

/-- One Fisher–Yates swap `[a[i], a[j]] = [a[j], a[i]]` on a list; in the
source both indices are always in range (`j ∈ [0, i]`, `i < length`), and on
those inputs this agrees with the JS destructuring swap. -/
def swapL {α : Type _} (l : List α) (i j : Nat) : List α :=
  match l[i]?, l[j]? with
  | some a, some b => (l.set i b).set j a
  | _, _ => l

/-- The `for (let i = length - 1; i > 0; i--)` loop of `shuffleArray`, with the
counter as the current loop index. -/
def shuffleSteps {α : Type _} (rand : Nat → Nat) : Nat → List α → List α
  | 0, l => l
  | i + 1, l => shuffleSteps rand i (swapL l (i + 1) (rand (i + 1)))

/-- `shuffleArray` from `PracticeContext.tsx` (Fisher–Yates), with the random
draws supplied by `rand`. -/
def shuffleArray {α : Type _} (rand : Nat → Nat) (l : List α) : List α :=
  shuffleSteps rand (l.length - 1) l

/-- `arraysEqual` from `PracticeContext.tsx`:
`a.length === b.length && a.every(item => b.includes(item))`. -/
def arraysEqual (a b : List String) : Bool :=
  a.length == b.length && a.all (fun item => b.contains item)

/-- JavaScript's default `Array.prototype.sort()` on an array of strings:
sorts lexicographically. -/
def sortJS (l : List String) : List String :=
  l.mergeSort (fun a b => a ≤ b)

/-- The fresh per-topic accumulator entry
`{ topic: topicName, totalQuestions: 0, correctAnswers: 0, score: 0 }`. -/
def emptyTopicResult (topicName : String) : TopicResult :=
  { topic := topicName, totalQuestions := 0, correctAnswers := 0, score := 0 }

/-- The per-question update of a topic accumulator entry in `calculateResults`:
increment `totalQuestions`, increment `correctAnswers` when the result was
correct, and recompute `score` from the updated counters. -/
def bumpTopic (isCorrect : Bool) (tr : TopicResult) : TopicResult :=
  let total := tr.totalQuestions + 1
  let correct := tr.correctAnswers + (if isCorrect then 1 else 0)
  { tr with
    totalQuestions := total
    correctAnswers := correct
    score := round (((correct : ℚ) / (total : ℚ)) * 100) }

/-- The accumulator object of `calculateResults`' `reduce`, modelled as an
insertion-ordered association list keyed by topic (JS object keys preserve
insertion order, and `Object.values` reads them back in that order):
find the entry for `topicName` and bump it, creating it at the end first if
absent. -/
def upsertTopic (topicName : String) (isCorrect : Bool) :
    List TopicResult → List TopicResult
  | [] => [bumpTopic isCorrect (emptyTopicResult topicName)]
  | tr :: rest =>
    if tr.topic = topicName then bumpTopic isCorrect tr :: rest
    else tr :: upsertTopic topicName isCorrect rest

/-- The body of `calculateResults`' `reduce` over `questions`: skip a question
with no recorded result, otherwise bump its topic's accumulator entry. -/
def topicStep (questionResults : List QuestionResult) (acc : List TopicResult)
    (question : Question) : List TopicResult :=
  match questionResults.find? (fun r => r.questionId == question.id) with
  | none => acc
  | some result => upsertTopic question.topic result.isCorrect acc

/-- `calculateResults` from `PracticeContext.tsx`. -/
def calculateResults (questionResults : List QuestionResult)
    (questions : List Question) : SessionResults :=
  let totalQuestions := questionResults.length
  let correctAnswers := (questionResults.filter (fun r => r.isCorrect)).length
  let score : Int :=
    if 0 < totalQuestions then
      round (((correctAnswers : ℚ) / (totalQuestions : ℚ)) * 100)
    else 0
  let timeSpent := questionResults.foldl (fun total r => total + r.timeSpent) 0
  let topicResults := questions.foldl (topicStep questionResults) []
  { totalQuestions := totalQuestions
    correctAnswers := correctAnswers
    score := score
    timeSpent := timeSpent
    topicResults := topicResults
    questionResults := questionResults }

/-- The topic filter at the head of the `START_SESSION` case: filter
`questions` to `configuration.selectedTopics`, no filter when that list is
empty. -/
def filterByTopics (configuration : SessionConfiguration)
    (questions : List Question) : List Question :=
  if 0 < configuration.selectedTopics.length then
    questions.filter (fun q => configuration.selectedTopics.contains q.topic)
  else questions

/-- `question.options = shuffleArray([...question.options])` for one question. -/
def applyOptionShuffle (rand : Nat → Nat) (q : Question) : Question :=
  { q with options := shuffleArray rand q.options }

/-- The `currentQuestions.forEach(...)` option-shuffling pass of
`START_SESSION`; each question consumes a fresh stream of random draws
(`randO k` for the `k`-th question). -/
def shuffleAllOptions (randO : Nat → Nat → Nat) (k : Nat) :
    List Question → List Question
  | [] => []
  | q :: rest => applyOptionShuffle (randO k) q :: shuffleAllOptions randO (k + 1) rest

/-- `practiceReducer` from `PracticeContext.tsx`. -/
def practiceReducer (env : ReducerEnv) (state : PracticeContextState)
    (action : PracticeAction) : PracticeContextState :=
  match action with
  | .START_SESSION configuration questions =>
    let filteredQuestions := filterByTopics configuration questions
    let shuffledQuestions :=
      if configuration.shuffleEnabled then shuffleArray env.randQ filteredQuestions
      else filteredQuestions
    let currentQuestions :=
      if configuration.shuffleOptions then shuffleAllOptions env.randO 0 shuffledQuestions
      else shuffledQuestions
    let totalTimeAllowed : Int :=
      if configuration.timerEnabled then
        Int.ceil ((currentQuestions.length : ℚ) * configuration.minutesPerQuestion * 60)
      else 0
    let session : PracticeSession :=
      { id := env.sid
        startTime := env.now
        endTime := none
        mode := if configuration.timerEnabled then .exam else .practice
        configuration := configuration
        progress :=
          { currentQuestionIndex := 0, answeredQuestions := 0, correctAnswers := 0
            timeSpent := 0, questionResults := [] }
        results := none
        timer :=
          { totalTimeAllowed := totalTimeAllowed
            timeRemaining := totalTimeAllowed
            isActive := configuration.timerEnabled
            questionStartTime := env.now } }
    { state with
      session := some session
      questions :=
        { original := questions, current := currentQuestions
          currentIndex := 0, totalCount := currentQuestions.length }
      answers := { submitted := [], current := [], isSubmitted := false }
      ui := { state.ui with showResults := false, isLoading := false } }
  | .ANSWER_QUESTION answers =>
    { state with answers := { state.answers with current := answers } }
  | .SUBMIT_ANSWER =>
    match state.session with
    | none => state
    | some session =>
      if state.answers.isSubmitted then state
      else
        match state.questions.current[state.questions.currentIndex]? with
        | none => state
        | some currentQuestion =>
          let isCorrect := arraysEqual (sortJS state.answers.current)
            (sortJS currentQuestion.correctAnswers)
          let questionResult : QuestionResult :=
            { questionId := currentQuestion.id
              selectedAnswers := state.answers.current
              correctAnswers := currentQuestion.correctAnswers
              isCorrect := isCorrect
              timeSpent := 60
              attempts := 1 }
          let updatedProgress : SessionProgress :=
            { session.progress with
              answeredQuestions := session.progress.answeredQuestions + 1
              correctAnswers := session.progress.correctAnswers +
                (if isCorrect then 1 else 0)
              questionResults := session.progress.questionResults ++ [questionResult] }
          { state with
            session := some { session with progress := updatedProgress }
            answers := { state.answers with isSubmitted := true } }
  | .NEXT_QUESTION =>
    let nextIndex := state.questions.currentIndex + 1
    if state.questions.totalCount ≤ nextIndex then
      { state with ui := { state.ui with showResults := true } }
    else
      { state with
        questions := { state.questions with currentIndex := nextIndex }
        answers :=
          { submitted := state.answers.submitted, current := [], isSubmitted := false } }
  | .PREVIOUS_QUESTION =>
    { state with
      questions := { state.questions with currentIndex := state.questions.currentIndex - 1 }
      answers :=
        { submitted := state.answers.submitted, current := [], isSubmitted := false } }
  | .FINISH_SESSION =>
    match state.session with
    | none => state
    | some session =>
      let results := calculateResults session.progress.questionResults
        state.questions.current
      { state with
        session := some { session with endTime := some env.now, results := some results }
        ui := { state.ui with showResults := true } }
  | .RESET_SESSION =>
    { initialState with topics := state.topics }
  | .SET_LOADING payload =>
    { state with ui := { state.ui with isLoading := payload } }
  | .SHOW_RESULTS payload =>
    { state with ui := { state.ui with showResults := payload } }
  | .SET_THEME payload =>
    { state with ui := { state.ui with theme := payload } }
  | .UPDATE_TIMER timeRemaining =>
    match state.session with
    | none => state
    | some session =>
      if timeRemaining ≤ 0 then
        let results := calculateResults session.progress.questionResults
          state.questions.current
        { state with
          session := some
            { session with
              endTime := some env.now
              results := some results
              timer := { session.timer with timeRemaining := 0, isActive := false } }
          ui := { state.ui with showResults := true } }
      else
        { state with
          session := some
            { session with timer := { session.timer with timeRemaining := timeRemaining } } }
  | .PAUSE_TIMER =>
    match state.session with
    | none => state
    | some session =>
      { state with session := some { session with timer := { session.timer with isActive := false } } }
  | .RESUME_TIMER =>
    match state.session with
    | none => state
    | some session =>
      { state with session := some { session with timer := { session.timer with isActive := true } } }
  | .END_EXAM_EARLY =>
    match state.session with
    | none => state
    | some session =>
      let results := calculateResults session.progress.questionResults
        state.questions.current
      { state with
        session := some
          { session with
            endTime := some env.now
            results := some results
            timer := { session.timer with isActive := false } }
        ui := { state.ui with showResults := true } }

/-- `handleSubmit` from `app/practice/page.tsx`: the submit operation exposed
to the user; guards against an empty answer buffer
(`if (state.answers.current.length === 0) return`). -/
def handleSubmit (env : ReducerEnv) (state : PracticeContextState) :
    PracticeContextState :=
  if state.answers.current.length = 0 then state
  else practiceReducer env state .SUBMIT_ANSWER

/-- `handleNext` from `app/practice/page.tsx`: the advance-next operation
exposed to the user; at the last question (`currentIndex === totalCount - 1`,
computed in JS arithmetic, hence the `Int` comparison) it calls
`finishSession()`, otherwise `nextQuestion()`. -/
def handleNext (env : ReducerEnv) (state : PracticeContextState) :
    PracticeContextState :=
  if (state.questions.currentIndex : Int) = (state.questions.totalCount : Int) - 1 then
    practiceReducer env state .FINISH_SESSION
  else practiceReducer env state .NEXT_QUESTION

/-- One firing of the timer driver (the `useEffect` interval in
`PracticeContext.tsx`): the interval is scheduled only while
`timer.isActive && timer.timeRemaining > 0`, and each firing dispatches
`UPDATE_TIMER` with `timeRemaining - 1`. -/
def tick (env : ReducerEnv) (state : PracticeContextState) : PracticeContextState :=
  match state.session with
  | some session =>
    if session.timer.isActive = true ∧ 0 < session.timer.timeRemaining then
      practiceReducer env state (.UPDATE_TIMER (session.timer.timeRemaining - 1))
    else state
  | none => state

/-! ## Concrete fixtures used by witnesses and counterexamples -/

/-- A concrete environment: timestamp 0, a fixed session id, and the random
draw 0 at every step. -/
def env0 : ReducerEnv :=
  { now := 0, sid := "session_0", randQ := fun _ => 0, randO := fun _ _ => 0 }

def meta0 : QuestionMetadata := { difficulty := .medium, estimatedTime := 60, tags := [] }

def mkOpt (i : String) (correct : Bool) : QuestionOption :=
  { id := i, text := i, isCorrect := correct }

/-- A question of topic "X" whose answer key is `{A, C}`. -/
def qAC : Question :=
  { id := 1, questionNumber := 1, topic := "X", question := "q1", note := none
    options := [mkOpt "A" true, mkOpt "B" false, mkOpt "C" true]
    correctAnswers := ["A", "C"], metadata := meta0 }

def cfg0 : SessionConfiguration :=
  { selectedTopics := [], shuffleEnabled := false, shuffleOptions := false
    timeLimit := none, autoAdvance := false, showFeedback := true
    timerEnabled := false, minutesPerQuestion := 9 / 4 }

def timer0 : SessionTimer :=
  { totalTimeAllowed := 0, timeRemaining := 0, isActive := false, questionStartTime := 0 }

def progress0 : SessionProgress :=
  { currentQuestionIndex := 0, answeredQuestions := 0, correctAnswers := 0
    timeSpent := 0, questionResults := [] }

def session0 : PracticeSession :=
  { id := "s", startTime := 0, endTime := none, mode := .practice
    configuration := cfg0, progress := progress0, results := none, timer := timer0 }

/-- An in-flight state: an untimed session positioned at question 0 of `qs`,
with answer buffer `buffer`, nothing submitted yet. -/
def stateAt (qs : List Question) (buffer : List String) : PracticeContextState :=
  { session := some session0
    questions := { original := qs, current := qs, currentIndex := 0, totalCount := qs.length }
    answers := { submitted := [], current := buffer, isSubmitted := false }
    ui := { showResults := false, isLoading := false, theme := .light }
    topics := [] }

/-! ## Generic lemmas about the reducer -/

/-- A second `SUBMIT_ANSWER` after the flag is set is the `return state`
branch at the top of the `SUBMIT_ANSWER` case. -/
theorem submit_of_submitted (env : ReducerEnv) (s : PracticeContextState)
    (h : s.answers.isSubmitted = true) : practiceReducer env s .SUBMIT_ANSWER = s := by
  cases hs : s.session with
  | none => simp [practiceReducer, hs]
  | some sess => simp [practiceReducer, hs, h]

theorem submit_no_session (env : ReducerEnv) (s : PracticeContextState)
    (h : s.session = none) : practiceReducer env s .SUBMIT_ANSWER = s := by
  simp [practiceReducer, h]

theorem submit_no_current (env : ReducerEnv) (s : PracticeContextState)
    (h : s.questions.current[s.questions.currentIndex]? = none) :
    practiceReducer env s .SUBMIT_ANSWER = s := by
  cases hs : s.session with
  | none => simp [practiceReducer, hs]
  | some sess =>
    by_cases hsub : s.answers.isSubmitted <;> simp [practiceReducer, hs, hsub, h]

/-- The successful `SUBMIT_ANSWER` branch, fully explicit. -/
theorem submit_success (env : ReducerEnv) (s : PracticeContextState)
    (sess : PracticeSession) (q : Question)
    (hs : s.session = some sess) (hsub : s.answers.isSubmitted = false)
    (hq : s.questions.current[s.questions.currentIndex]? = some q) :
    practiceReducer env s .SUBMIT_ANSWER =
      { s with
        session := some
          { sess with progress :=
            { sess.progress with
              answeredQuestions := sess.progress.answeredQuestions + 1
              correctAnswers := sess.progress.correctAnswers +
                (if arraysEqual (sortJS s.answers.current) (sortJS q.correctAnswers) then 1 else 0)
              questionResults := sess.progress.questionResults ++
                [{ questionId := q.id
                   selectedAnswers := s.answers.current
                   correctAnswers := q.correctAnswers
                   isCorrect := arraysEqual (sortJS s.answers.current) (sortJS q.correctAnswers)
                   timeSpent := 60
                   attempts := 1 }] } }
        answers := { s.answers with isSubmitted := true } } := by
  simp [practiceReducer, hs, hsub, hq]

theorem submit_preserves_current (env : ReducerEnv) (s : PracticeContextState) :
    (practiceReducer env s .SUBMIT_ANSWER).answers.current = s.answers.current := by
  cases hs : s.session with
  | none => simp [practiceReducer, hs]
  | some sess =>
    by_cases hsub : s.answers.isSubmitted
    · simp [practiceReducer, hs, hsub]
    · cases hq : s.questions.current[s.questions.currentIndex]? with
      | none => simp [practiceReducer, hs, hsub, hq]
      | some q => rw [submit_success env s sess q hs (by simpa using hsub) hq]

/-! ## Permutation properties of the Fisher–Yates shuffle -/

/-- Replacing the element at position `m` by `x` and moving the old
element `b` to the front permutes `x :: t`. -/
theorem cons_set_perm {α : Type _} :
    ∀ (t : List α) (m : Nat) (x b : α), t[m]? = some b →
      List.Perm (b :: t.set m x) (x :: t) := by
  intro t
  induction t with
  | nil => intro m x b h; simp at h
  | cons c t' ih =>
    intro m x b h
    cases m with
    | zero =>
      have hb : c = b := by simpa using h
      rw [← hb]
      simpa using List.Perm.swap x c t'
    | succ k =>
      simp only [List.getElem?_cons_succ] at h
      have ihk := ih k x b h
      have s1 : List.Perm (b :: c :: t'.set k x) (c :: b :: t'.set k x) :=
        List.Perm.swap c b _
      have s2 : List.Perm (c :: b :: t'.set k x) (c :: x :: t') := ihk.cons c
      have s3 : List.Perm (c :: x :: t') (x :: c :: t') := List.Perm.swap x c t'
      simpa using (s1.trans s2).trans s3

/-- The double `set` realising one Fisher–Yates swap is a permutation. -/
theorem set_set_perm {α : Type _} :
    ∀ (l : List α) (i j : Nat) (a b : α), l[i]? = some a → l[j]? = some b →
      List.Perm ((l.set i b).set j a) l := by
  intro l
  induction l with
  | nil => intro i j a b hi _; simp at hi
  | cons x t ih =>
    intro i j a b hi hj
    cases i with
    | zero =>
      simp only [List.getElem?_cons_zero, Option.some.injEq] at hi
      cases j with
      | zero =>
        simp only [List.getElem?_cons_zero, Option.some.injEq] at hj
        rw [← hi, ← hj]
        simp
      | succ m =>
        simp only [List.getElem?_cons_succ] at hj
        rw [← hi]
        simpa using cons_set_perm t m x b hj
    | succ n =>
      simp only [List.getElem?_cons_succ] at hi
      cases j with
      | zero =>
        simp only [List.getElem?_cons_zero, Option.some.injEq] at hj
        rw [← hj]
        simpa using cons_set_perm t n x a hi
      | succ m =>
        simp only [List.getElem?_cons_succ] at hj
        simpa using (ih n m a b hi hj).cons x

theorem swapL_perm {α : Type _} (l : List α) (i j : Nat) :
    List.Perm (swapL l i j) l := by
  unfold swapL
  cases hi : l[i]? with
  | none => exact List.Perm.refl l
  | some a =>
    cases hj : l[j]? with
    | none => exact List.Perm.refl l
    | some b => exact set_set_perm l i j a b hi hj

theorem shuffleSteps_perm {α : Type _} (rand : Nat → Nat) :
    ∀ (n : Nat) (l : List α), List.Perm (shuffleSteps rand n l) l := by
  intro n
  induction n with
  | zero => intro l; exact List.Perm.refl l
  | succ i ih =>
    intro l
    exact (ih (swapL l (i + 1) (rand (i + 1)))).trans (swapL_perm l (i + 1) (rand (i + 1)))

theorem shuffleArray_perm {α : Type _} (rand : Nat → Nat) (l : List α) :
    List.Perm (shuffleArray rand l) l :=
  shuffleSteps_perm rand (l.length - 1) l

theorem shuffleArray_length {α : Type _} (rand : Nat → Nat) (l : List α) :
    (shuffleArray rand l).length = l.length :=
  (shuffleArray_perm rand l).length_eq

theorem shuffleAllOptions_map_id (randO : Nat → Nat → Nat) :
    ∀ (k : Nat) (l : List Question),
      (shuffleAllOptions randO k l).map (fun q => q.id) = l.map (fun q => q.id) := by
  intro k l
  induction l generalizing k with
  | nil => rfl
  | cons q rest ih => simp [shuffleAllOptions, applyOptionShuffle, ih]

theorem shuffleAllOptions_length (randO : Nat → Nat → Nat) (k : Nat) (l : List Question) :
    (shuffleAllOptions randO k l).length = l.length := by
  have h := congrArg List.length (shuffleAllOptions_map_id randO k l)
  simpa using h

/-! ## The scoring comparison `arraysEqual` -/

theorem sortJS_perm (l : List String) : List.Perm (sortJS l) l :=
  List.mergeSort_perm l _

theorem arraysEqual_eq_true_iff (a b : List String) :
    arraysEqual a b = true ↔ a.length = b.length ∧ ∀ x ∈ a, x ∈ b := by
  simp only [arraysEqual, Bool.and_eq_true, beq_iff_eq, List.all_eq_true]
  constructor
  · rintro ⟨h1, h2⟩
    exact ⟨h1, fun x hx => List.elem_iff.mp (h2 x hx)⟩
  · rintro ⟨h1, h2⟩
    exact ⟨h1, fun x hx => List.elem_iff.mpr (h2 x hx)⟩

/-- On duplicate-free lists (id sets), the sorted `arraysEqual` comparison of
`SUBMIT_ANSWER` decides exactly equality as sets. -/
theorem arraysEqual_sortJS_iff (a b : List String)
    (ha : a.Nodup) (hb : b.Nodup) :
    arraysEqual (sortJS a) (sortJS b) = true ↔ (∀ x, x ∈ a ↔ x ∈ b) := by
  have pa := sortJS_perm a
  have pb := sortJS_perm b
  rw [arraysEqual_eq_true_iff]
  constructor
  · rintro ⟨hlen, hsub⟩
    have hsub' : a ⊆ b := fun x hx =>
      (pb.mem_iff).mp (hsub x ((pa.mem_iff).mpr hx))
    have hlen' : b.length ≤ a.length := by
      rw [← pa.length_eq, ← pb.length_eq, hlen]
    have hperm : List.Perm a b := (ha.subperm hsub').perm_of_length_le hlen'
    exact fun x => hperm.mem_iff
  · intro h
    have hab : a ⊆ b := fun x hx => (h x).mp hx
    have hba : b ⊆ a := fun x hx => (h x).mpr hx
    have hperm : List.Perm a b := (ha.subperm hab).antisymm (hb.subperm hba)
    refine ⟨by rw [pa.length_eq, pb.length_eq, hperm.length_eq], fun x hx => ?_⟩
    exact (pb.mem_iff).mpr ((hperm.mem_iff).mp ((pa.mem_iff).mp hx))

theorem arraysEqual_sortJS_eq_false (a b : List String)
    (ha : a.Nodup) (hb : b.Nodup) (h : ¬ ∀ x, x ∈ a ↔ x ∈ b) :
    arraysEqual (sortJS a) (sortJS b) = false :=
  Bool.eq_false_iff.mpr (fun ht => h ((arraysEqual_sortJS_iff a b ha hb).mp ht))

/-- The `isCorrect` flags of all recorded results after one `SUBMIT_ANSWER`
in the fixed environment `env0` (`none` when no session exists). -/
def submittedCorrectFlags (s : PracticeContextState) : Option (List Bool) :=
  (practiceReducer env0 s .SUBMIT_ANSWER).session.map
    (fun sess => sess.progress.questionResults.map (fun r => r.isCorrect))

/-- C1.  For every submitted question, the recorded `QuestionResult` has
`isCorrect = true` iff the selected option ids and the correct option ids are
equal as sets (stated for duplicate-free buffers and answer keys, i.e. for
id sets, which is what the UI produces and the data model prescribes);
moreover with answer key `{A, C}`, submitting `{A}` records `false`,
`{C, A}` records `true`, and `{A, C, B}` records `false`. -/
theorem C1_submit_isCorrect_iff_set_eq (env : ReducerEnv) (s : PracticeContextState)
    (sess : PracticeSession) (q : Question)
    (hs : s.session = some sess) (hsub : s.answers.isSubmitted = false)
    (hq : s.questions.current[s.questions.currentIndex]? = some q)
    (hsel : s.answers.current.Nodup) (hkey : q.correctAnswers.Nodup) :
    (∃ r : QuestionResult,
      (practiceReducer env s .SUBMIT_ANSWER).session =
        some { sess with progress :=
          { sess.progress with
            answeredQuestions := sess.progress.answeredQuestions + 1
            correctAnswers := sess.progress.correctAnswers +
              (if r.isCorrect then 1 else 0)
            questionResults := sess.progress.questionResults ++ [r] } } ∧
      r.selectedAnswers = s.answers.current ∧
      r.correctAnswers = q.correctAnswers ∧
      (r.isCorrect = true ↔ ∀ x, x ∈ s.answers.current ↔ x ∈ q.correctAnswers)) ∧
    submittedCorrectFlags (stateAt [qAC] ["A"]) = some [false] ∧
    submittedCorrectFlags (stateAt [qAC] ["C", "A"]) = some [true] ∧
    submittedCorrectFlags (stateAt [qAC] ["A", "C", "B"]) = some [false] := by
  have flags : ∀ buffer : List String,
      submittedCorrectFlags (stateAt [qAC] buffer) =
        some [arraysEqual (sortJS buffer) (sortJS ["A", "C"])] := by
    intro buffer
    unfold submittedCorrectFlags
    rw [submit_success env0 (stateAt [qAC] buffer) session0 qAC rfl rfl rfl]
    rfl
  refine ⟨⟨{ questionId := q.id
             selectedAnswers := s.answers.current
             correctAnswers := q.correctAnswers
             isCorrect := arraysEqual (sortJS s.answers.current) (sortJS q.correctAnswers)
             timeSpent := 60
             attempts := 1 }, ?_, rfl, rfl,
           arraysEqual_sortJS_iff _ _ hsel hkey⟩, ?_, ?_, ?_⟩
  · rw [submit_success env s sess q hs hsub hq]
  · rw [flags ["A"]]
    exact congrArg (fun b => some [b])
      (arraysEqual_sortJS_eq_false ["A"] ["A", "C"] (by decide) (by decide)
        (fun h => absurd ((h "C").mpr (by decide)) (by decide)))
  · rw [flags ["C", "A"]]
    refine congrArg (fun b => some [b])
      ((arraysEqual_sortJS_iff ["C", "A"] ["A", "C"] (by decide) (by decide)).mpr ?_)
    intro x
    constructor <;> intro hx <;> simp only [List.mem_cons, List.not_mem_nil, or_false] at hx ⊢ <;>
      tauto
  · rw [flags ["A", "C", "B"]]
    exact congrArg (fun b => some [b])
      (arraysEqual_sortJS_eq_false ["A", "C", "B"] ["A", "C"] (by decide) (by decide)
        (fun h => absurd ((h "B").mp (by decide)) (by decide)))

/-- Witness for C1 at the concrete `{C, A}` vs `{A, C}` submission. -/
theorem C1_witness :
    (∃ r : QuestionResult,
      (practiceReducer env0 (stateAt [qAC] ["C", "A"]) .SUBMIT_ANSWER).session =
        some { session0 with progress :=
          { session0.progress with
            answeredQuestions := session0.progress.answeredQuestions + 1
            correctAnswers := session0.progress.correctAnswers +
              (if r.isCorrect then 1 else 0)
            questionResults := session0.progress.questionResults ++ [r] } } ∧
      r.selectedAnswers = (stateAt [qAC] ["C", "A"]).answers.current ∧
      r.correctAnswers = qAC.correctAnswers ∧
      (r.isCorrect = true ↔
        ∀ x, x ∈ (stateAt [qAC] ["C", "A"]).answers.current ↔ x ∈ qAC.correctAnswers)) ∧
    submittedCorrectFlags (stateAt [qAC] ["A"]) = some [false] ∧
    submittedCorrectFlags (stateAt [qAC] ["C", "A"]) = some [true] ∧
    submittedCorrectFlags (stateAt [qAC] ["A", "C", "B"]) = some [false] :=
  C1_submit_isCorrect_iff_set_eq env0 (stateAt [qAC] ["C", "A"]) session0 qAC
    rfl rfl rfl (by decide) (by decide)

/-- The question sequence installed by `START_SESSION`, read back from the
resulting state. -/
theorem start_questions_current (env : ReducerEnv) (s : PracticeContextState)
    (cfg : SessionConfiguration) (qs : List Question) :
    (practiceReducer env s (.START_SESSION cfg qs)).questions.current =
      (if cfg.shuffleOptions then
          shuffleAllOptions env.randO 0
            (if cfg.shuffleEnabled then shuffleArray env.randQ (filterByTopics cfg qs)
             else filterByTopics cfg qs)
        else
          (if cfg.shuffleEnabled then shuffleArray env.randQ (filterByTopics cfg qs)
           else filterByTopics cfg qs)) := rfl

theorem start_totalCount (env : ReducerEnv) (s : PracticeContextState)
    (cfg : SessionConfiguration) (qs : List Question) :
    (practiceReducer env s (.START_SESSION cfg qs)).questions.totalCount =
      (practiceReducer env s (.START_SESSION cfg qs)).questions.current.length := rfl

/-- C3 counterexample: a topic filter that empties the question set does not
make `START_SESSION` fail — a session is still created, with zero
questions. -/
theorem C3_counterexample :
    (practiceReducer env0 initialState
        (.START_SESSION { cfg0 with selectedTopics := ["Y"] } [qAC])).session ≠ none ∧
    (practiceReducer env0 initialState
        (.START_SESSION { cfg0 with selectedTopics := ["Y"] } [qAC])).questions.totalCount = 0 ∧
    (practiceReducer env0 initialState
        (.START_SESSION { cfg0 with selectedTopics := ["Y"] } [qAC])).questions.current = [] :=
  ⟨fun h => Option.noConfusion h, rfl, rfl⟩

/-- C3 amended: `START_SESSION` never fails and never refuses to create a
session: for every input it installs a session (`isSome`), with exactly the
topic-filtered questions (possibly zero of them) and `currentIndex = 0`.
There is no `EmptyQuestionSet` guard in the code. -/
theorem C3_start_always_creates_session (env : ReducerEnv) (s : PracticeContextState)
    (cfg : SessionConfiguration) (qs : List Question) :
    (practiceReducer env s (.START_SESSION cfg qs)).session.isSome = true ∧
    (practiceReducer env s (.START_SESSION cfg qs)).questions.totalCount =
      (filterByTopics cfg qs).length ∧
    (practiceReducer env s (.START_SESSION cfg qs)).questions.currentIndex = 0 := by
  refine ⟨rfl, ?_, rfl⟩
  rw [start_totalCount, start_questions_current]
  by_cases ho : cfg.shuffleOptions <;> by_cases he : cfg.shuffleEnabled <;>
    simp [ho, he, shuffleAllOptions_length, shuffleArray_length]

/-- C4.  The submit operation exposed to the user (`handleSubmit`) with an
empty answer buffer is rejected by the guard and leaves the whole state
unchanged: nothing is appended and no flag is touched. -/
theorem C4_submit_empty_buffer_noop (env : ReducerEnv) (s : PracticeContextState)
    (h : s.answers.current = []) : handleSubmit env s = s := by
  simp [handleSubmit, h]

theorem C4_witness :
    handleSubmit env0 (stateAt [qAC] []) = stateAt [qAC] [] :=
  C4_submit_empty_buffer_noop env0 (stateAt [qAC] []) rfl

/-- An active-session state whose current question has already been
submitted, with `{A}` buffered. -/
def s5 : PracticeContextState :=
  { stateAt [qAC] ["A"] with
    answers := { submitted := [], current := ["A"], isSubmitted := true } }

/-- C5 counterexample: `ANSWER_QUESTION` is applied even though
`isSubmitted = true` — the buffer changes, so the transition is not a
no-op. -/
theorem C5_counterexample :
    s5.answers.isSubmitted = true ∧
    s5.answers.current = ["A"] ∧
    (practiceReducer env0 s5 (.ANSWER_QUESTION ["B"])).answers.current = ["B"] ∧
    practiceReducer env0 s5 (.ANSWER_QUESTION ["B"]) ≠ s5 := by
  refine ⟨rfl, rfl, rfl, fun h => ?_⟩
  have h2 : (["B"] : List String) = ["A"] :=
    congrArg (fun st => st.answers.current) h
  exact absurd h2 (by decide)

/-- C5 amended: `ANSWER_QUESTION` is not guarded by `isSubmitted`; it always
replaces the answer buffer, but changes nothing else — the session (hence the
recorded `questionResults`), the submitted flag and every other field are
untouched.  The lock after submission exists only in the UI (the inputs are
`disabled`), not in the state machine. -/
theorem C5_answer_always_replaces_buffer (env : ReducerEnv)
    (s : PracticeContextState) (ans : List String) :
    (practiceReducer env s (.ANSWER_QUESTION ans)).answers.current = ans ∧
    (practiceReducer env s (.ANSWER_QUESTION ans)).session = s.session ∧
    (practiceReducer env s (.ANSWER_QUESTION ans)).answers.isSubmitted =
      s.answers.isSubmitted ∧
    (practiceReducer env s (.ANSWER_QUESTION ans)).answers.submitted =
      s.answers.submitted ∧
    (practiceReducer env s (.ANSWER_QUESTION ans)).questions = s.questions ∧
    (practiceReducer env s (.ANSWER_QUESTION ans)).ui = s.ui ∧
    (practiceReducer env s (.ANSWER_QUESTION ans)).topics = s.topics :=
  ⟨rfl, rfl, rfl, rfl, rfl, rfl, rfl⟩

/-- C8.  `SUBMIT_ANSWER` is idempotent, both at the reducer level and through
the user-facing `handleSubmit`: a second submit without an intervening answer
or navigation returns the state of the first unchanged. -/
theorem C8_submit_idempotent (env : ReducerEnv) (s : PracticeContextState) :
    practiceReducer env (practiceReducer env s .SUBMIT_ANSWER) .SUBMIT_ANSWER =
      practiceReducer env s .SUBMIT_ANSWER ∧
    handleSubmit env (handleSubmit env s) = handleSubmit env s := by
  have core : ∀ s' : PracticeContextState,
      practiceReducer env (practiceReducer env s' .SUBMIT_ANSWER) .SUBMIT_ANSWER =
        practiceReducer env s' .SUBMIT_ANSWER := by
    intro s'
    cases hs : s'.session with
    | none => rw [submit_no_session env s' hs, submit_no_session env s' hs]
    | some sess =>
      by_cases hsub : s'.answers.isSubmitted
      · rw [submit_of_submitted env s' hsub, submit_of_submitted env s' hsub]
      · cases hq : s'.questions.current[s'.questions.currentIndex]? with
        | none => rw [submit_no_current env s' hq, submit_no_current env s' hq]
        | some q =>
          rw [submit_success env s' sess q hs (by simpa using hsub) hq]
          exact submit_of_submitted env _ rfl
  refine ⟨core s, ?_⟩
  by_cases hb : s.answers.current.length = 0
  · simp [handleSubmit, hb]
  · have h1 : handleSubmit env s = practiceReducer env s .SUBMIT_ANSWER := by
      simp [handleSubmit, hb]
    have hb2 : ¬ (practiceReducer env s .SUBMIT_ANSWER).answers.current.length = 0 := by
      rw [submit_preserves_current]; exact hb
    rw [h1]
    simp [handleSubmit, hb2, core s]

/-- C6.  At the last question the advance-next operation exposed to the user
(`handleNext`) is literally `finishSession()`: it dispatches
`FINISH_SESSION`, which stamps `endTime` and stores the computed
`SessionResults`, completing the session. -/
theorem C6_next_at_last_is_finish (env : ReducerEnv) (s : PracticeContextState)
    (sess : PracticeSession)
    (hidx : (s.questions.currentIndex : Int) = (s.questions.totalCount : Int) - 1)
    (hs : s.session = some sess) :
    handleNext env s = practiceReducer env s .FINISH_SESSION ∧
    (handleNext env s).session =
      some { sess with
        endTime := some env.now
        results := some (calculateResults sess.progress.questionResults
          s.questions.current) } ∧
    (handleNext env s).ui.showResults = true := by
  have h1 : handleNext env s = practiceReducer env s .FINISH_SESSION := by
    simp [handleNext, hidx]
  refine ⟨h1, ?_, ?_⟩
  · rw [h1]; simp [practiceReducer, hs]
  · rw [h1]; simp [practiceReducer, hs]

theorem C6_witness :
    handleNext env0 (stateAt [qAC] ["A"]) =
      practiceReducer env0 (stateAt [qAC] ["A"]) .FINISH_SESSION ∧
    (handleNext env0 (stateAt [qAC] ["A"])).session =
      some { session0 with
        endTime := some env0.now
        results := some (calculateResults session0.progress.questionResults
          (stateAt [qAC] ["A"]).questions.current) } ∧
    (handleNext env0 (stateAt [qAC] ["A"])).ui.showResults = true :=
  C6_next_at_last_is_finish env0 (stateAt [qAC] ["A"]) session0 (by decide) rfl

/-- The answer key of a question, read off its options: the ids of the
options marked correct. -/
def correctOptionIds (q : Question) : List String :=
  (q.options.filter (fun o => o.isCorrect)).map (fun o => o.id)

/-- C9.  Both shuffles applied at session start are permutations: the
question shuffle permutes the question list (so the multiset of question ids
is unchanged), the option shuffle permutes each question's options (so the
multiset of option ids is unchanged) without touching the question's id,
`correctAnswers`, or the set of option ids marked correct; consequently the
question ids installed by `START_SESSION` are a permutation of the filtered
input's ids. -/
theorem C9_shuffles_are_permutations :
    (∀ (rand : Nat → Nat) (l : List Question), List.Perm (shuffleArray rand l) l) ∧
    (∀ (rand : Nat → Nat) (l : List Question),
      List.Perm ((shuffleArray rand l).map (fun q => q.id)) (l.map (fun q => q.id))) ∧
    (∀ (rand : Nat → Nat) (q : Question),
      List.Perm ((applyOptionShuffle rand q).options.map (fun o => o.id))
        (q.options.map (fun o => o.id)) ∧
      (applyOptionShuffle rand q).id = q.id ∧
      (applyOptionShuffle rand q).correctAnswers = q.correctAnswers ∧
      List.Perm (correctOptionIds (applyOptionShuffle rand q)) (correctOptionIds q)) ∧
    (∀ (env : ReducerEnv) (s : PracticeContextState) (cfg : SessionConfiguration)
        (qs : List Question),
      List.Perm
        ((practiceReducer env s (.START_SESSION cfg qs)).questions.current.map
          (fun q => q.id))
        ((filterByTopics cfg qs).map (fun q => q.id))) := by
  refine ⟨fun rand l => shuffleArray_perm rand l,
          fun rand l => (shuffleArray_perm rand l).map _,
          fun rand q => ⟨(shuffleArray_perm rand q.options).map _, rfl, rfl,
            ((shuffleArray_perm rand q.options).filter _).map _⟩,
          fun env s cfg qs => ?_⟩
  rw [start_questions_current]
  by_cases ho : cfg.shuffleOptions <;> by_cases he : cfg.shuffleEnabled <;>
    simp only [ho, he, if_true, if_false, shuffleAllOptions_map_id]
  · exact (shuffleArray_perm env.randQ (filterByTopics cfg qs)).map _
  · exact List.Perm.refl _
  · exact (shuffleArray_perm env.randQ (filterByTopics cfg qs)).map _
  · exact List.Perm.refl _

/-- The user interactions available between two navigations: editing the
answer buffer (`ANSWER_QUESTION`) and submitting (`SUBMIT_ANSWER`). -/
inductive UserStep where
  | answer (ans : List String)
  | submit

def applyStep (env : ReducerEnv) (s : PracticeContextState) : UserStep → PracticeContextState
  | .answer ans => practiceReducer env s (.ANSWER_QUESTION ans)
  | .submit => practiceReducer env s .SUBMIT_ANSWER

def applySteps (env : ReducerEnv) (steps : List UserStep)
    (s : PracticeContextState) : PracticeContextState :=
  steps.foldl (fun st step => applyStep env st step) s

/-- Number of recorded `QuestionResult`s. -/
def resultsLen (s : PracticeContextState) : Nat :=
  match s.session with
  | some sess => sess.progress.questionResults.length
  | none => 0

/-- One answer/submit step preserves `resultsLen + (isSubmitted ? 0 : 1)`. -/
theorem applyStep_measure (env : ReducerEnv) (st : UserStep) (s : PracticeContextState) :
    resultsLen (applyStep env s st) +
        (if (applyStep env s st).answers.isSubmitted then 0 else 1) =
      resultsLen s + (if s.answers.isSubmitted then 0 else 1) := by
  cases st with
  | answer ans => rfl
  | submit =>
    cases hs : s.session with
    | none => rw [show applyStep env s .submit = practiceReducer env s .SUBMIT_ANSWER from rfl,
        submit_no_session env s hs]
    | some sess =>
      by_cases hsub : s.answers.isSubmitted
      · rw [show applyStep env s .submit = practiceReducer env s .SUBMIT_ANSWER from rfl,
          submit_of_submitted env s hsub]
      · cases hq : s.questions.current[s.questions.currentIndex]? with
        | none => rw [show applyStep env s .submit = practiceReducer env s .SUBMIT_ANSWER from rfl,
            submit_no_current env s hq]
        | some q =>
          rw [show applyStep env s .submit = practiceReducer env s .SUBMIT_ANSWER from rfl,
            submit_success env s sess q hs (by simpa using hsub) hq]
          simp [resultsLen, hs, hsub]

theorem applySteps_measure (env : ReducerEnv) (steps : List UserStep) :
    ∀ s : PracticeContextState,
      resultsLen (applySteps env steps s) +
          (if (applySteps env steps s).answers.isSubmitted then 0 else 1) =
        resultsLen s + (if s.answers.isSubmitted then 0 else 1) := by
  induction steps with
  | nil => intro s; rfl
  | cons st rest ih =>
    intro s
    have hstep := applyStep_measure env st s
    have hrest := ih (applyStep env s st)
    exact hrest.trans hstep

theorem applyStep_locked (env : ReducerEnv) (st : UserStep) (s : PracticeContextState)
    (h : s.answers.isSubmitted = true) :
    (applyStep env s st).session = s.session ∧
    (applyStep env s st).answers.isSubmitted = true := by
  cases st with
  | answer ans => exact ⟨rfl, h⟩
  | submit =>
    rw [show applyStep env s .submit = practiceReducer env s .SUBMIT_ANSWER from rfl,
      submit_of_submitted env s h]
    exact ⟨rfl, h⟩

theorem applySteps_locked (env : ReducerEnv) (steps : List UserStep) :
    ∀ s : PracticeContextState, s.answers.isSubmitted = true →
      (applySteps env steps s).session = s.session ∧
      (applySteps env steps s).answers.isSubmitted = true := by
  induction steps with
  | nil => intro s h; exact ⟨rfl, h⟩
  | cons st rest ih =>
    intro s h
    have h1 := applyStep_locked env st s h
    have h2 := ih (applyStep env s st) h1.2
    exact ⟨h1.1 ▸ h2.1, h2.2⟩

/-- C10.  Under every interleaving of answer and submit steps (no navigation),
at most one `QuestionResult` is appended; and once `isSubmitted` is true, no
answer/submit sequence can reset it, change the session, or append another
result. -/
theorem C10_at_most_one_result (env : ReducerEnv) (s : PracticeContextState)
    (steps : List UserStep) :
    resultsLen (applySteps env steps s) ≤
      resultsLen s + (if s.answers.isSubmitted then 0 else 1) ∧
    (s.answers.isSubmitted = true →
      (applySteps env steps s).session = s.session ∧
      resultsLen (applySteps env steps s) = resultsLen s ∧
      (applySteps env steps s).answers.isSubmitted = true) := by
  constructor
  · exact le_trans (Nat.le_add_right _ _) (le_of_eq (applySteps_measure env steps s))
  · intro h
    have hl := applySteps_locked env steps s h
    refine ⟨hl.1, ?_, hl.2⟩
    simp only [resultsLen, hl.1]

theorem C10_witness :
    resultsLen (applySteps env0 [UserStep.answer ["B"], UserStep.submit, UserStep.submit] s5) ≤
      resultsLen s5 + (if s5.answers.isSubmitted then 0 else 1) ∧
    (applySteps env0 [UserStep.answer ["B"], UserStep.submit, UserStep.submit] s5).session =
      s5.session ∧
    resultsLen (applySteps env0 [UserStep.answer ["B"], UserStep.submit, UserStep.submit] s5) =
      resultsLen s5 ∧
    (applySteps env0 [UserStep.answer ["B"], UserStep.submit, UserStep.submit] s5).answers.isSubmitted =
      true := by
  have h := C10_at_most_one_result env0 s5
    [UserStep.answer ["B"], UserStep.submit, UserStep.submit]
  exact ⟨h.1, (h.2 rfl).1, (h.2 rfl).2.1, (h.2 rfl).2.2⟩

/-! ## Timer expiry (C7) -/

/-- The completed session's results, if any. -/
def sessionResultsOf (s : PracticeContextState) : Option SessionResults :=
  match s.session with
  | some sess => sess.results
  | none => none

theorem tick_eq (env : ReducerEnv) (s : PracticeContextState) (sess : PracticeSession)
    (h : s.session = some sess) :
    tick env s =
      if sess.timer.isActive = true ∧ 0 < sess.timer.timeRemaining then
        practiceReducer env s (.UPDATE_TIMER (sess.timer.timeRemaining - 1))
      else s := by
  unfold tick
  rw [h]

theorem update_timer_expire (env : ReducerEnv) (s : PracticeContextState)
    (sess : PracticeSession) (h : s.session = some sess) (t : Int) (ht : t ≤ 0) :
    practiceReducer env s (.UPDATE_TIMER t) =
      { s with
        session := some { sess with
          endTime := some env.now
          results := some (calculateResults sess.progress.questionResults
            s.questions.current)
          timer := { sess.timer with timeRemaining := 0, isActive := false } }
        ui := { s.ui with showResults := true } } := by
  unfold practiceReducer
  rw [h]
  simp [ht]

theorem update_timer_set (env : ReducerEnv) (s : PracticeContextState)
    (sess : PracticeSession) (h : s.session = some sess) (t : Int) (ht : ¬ t ≤ 0) :
    practiceReducer env s (.UPDATE_TIMER t) =
      { s with session := some { sess with timer := { sess.timer with timeRemaining := t } } } := by
  unfold practiceReducer
  rw [h]
  simp [ht]

/-- The state `s` with its session's countdown replaced by `m`. -/
def setRemaining (s : PracticeContextState) (sess : PracticeSession) (m : Int) :
    PracticeContextState :=
  { s with session := some { sess with timer := { sess.timer with timeRemaining := m } } }

/-- The state produced by the expiring tick. -/
def expiredState (env : ReducerEnv) (s : PracticeContextState) (sess : PracticeSession) :
    PracticeContextState :=
  { s with
    session := some { sess with
      endTime := some env.now
      results := some (calculateResults sess.progress.questionResults s.questions.current)
      timer := { sess.timer with timeRemaining := 0, isActive := false } }
    ui := { s.ui with showResults := true } }

theorem tick_setRemaining_pos (env : ReducerEnv) (s : PracticeContextState)
    (sess : PracticeSession) (hact : sess.timer.isActive = true) (m : Nat) (hm : 2 ≤ m) :
    tick env (setRemaining s sess (m : Int)) = setRemaining s sess ((m - 1 : Nat) : Int) := by
  rw [tick_eq env _ { sess with timer := { sess.timer with timeRemaining := (m : Int) } } rfl]
  rw [if_pos ⟨hact, by simp; omega⟩]
  rw [update_timer_set env _ { sess with timer := { sess.timer with timeRemaining := (m : Int) } } rfl
    ((m : Int) - 1) (by omega)]
  show setRemaining s sess ((m : Int) - 1) = setRemaining s sess ((m - 1 : Nat) : Int)
  congr 1
  omega

theorem tick_setRemaining_one (env : ReducerEnv) (s : PracticeContextState)
    (sess : PracticeSession) (hact : sess.timer.isActive = true) :
    tick env (setRemaining s sess (1 : Int)) = expiredState env s sess := by
  rw [tick_eq env _ { sess with timer := { sess.timer with timeRemaining := (1 : Int) } } rfl]
  rw [if_pos ⟨hact, by simp⟩]
  rw [update_timer_expire env _ { sess with timer := { sess.timer with timeRemaining := (1 : Int) } } rfl
    ((1 : Int) - 1) (by omega)]
  rfl

theorem tick_expiredState (env : ReducerEnv) (s : PracticeContextState)
    (sess : PracticeSession) :
    tick env (expiredState env s sess) = expiredState env s sess := by
  rw [tick_eq env _ { sess with
      endTime := some env.now
      results := some (calculateResults sess.progress.questionResults s.questions.current)
      timer := { sess.timer with timeRemaining := 0, isActive := false } } rfl]
  simp

theorem tick_iterate_lt (env : ReducerEnv) (s : PracticeContextState)
    (sess : PracticeSession) (n : Nat)
    (hs : s.session = some sess) (hact : sess.timer.isActive = true)
    (hrem : sess.timer.timeRemaining = (n : Int)) :
    ∀ k, k < n → (tick env)^[k] s = setRemaining s sess ((n - k : Nat) : Int) := by
  intro k
  induction k with
  | zero =>
    intro _
    show s = setRemaining s sess ((n : Nat) : Int)
    unfold setRemaining
    rw [← hrem]
    show s = { s with session := some sess }
    rw [← hs]
  | succ k ih =>
    intro hk
    rw [Function.iterate_succ_apply', ih (by omega)]
    rw [tick_setRemaining_pos env s sess hact (n - k) (by omega)]
    rw [Nat.sub_sub]

/-- C7.  In a running timed session with `n` seconds remaining and no results
yet, the driven tick sequence forces the expiry transition exactly once: the
first `n - 1` ticks only count down (no results are produced), the `n`-th tick
completes the session (results and `endTime` set, timer stopped), every tick
after completion leaves the state unchanged, and the computed results satisfy
`totalQuestions = questionResults.length` (only submitted questions count). -/
theorem C7_timer_forces_single_finish (env : ReducerEnv) (s : PracticeContextState)
    (sess : PracticeSession) (n : Nat)
    (hs : s.session = some sess) (hact : sess.timer.isActive = true)
    (hrem : sess.timer.timeRemaining = (n : Int)) (hres : sess.results = none)
    (hn : 0 < n) :
    (∀ k, k < n → sessionResultsOf ((tick env)^[k] s) = none) ∧
    ((tick env)^[n] s = expiredState env s sess ∧
      sessionResultsOf ((tick env)^[n] s) =
        some (calculateResults sess.progress.questionResults s.questions.current) ∧
      (calculateResults sess.progress.questionResults s.questions.current).totalQuestions =
        (calculateResults sess.progress.questionResults
          s.questions.current).questionResults.length) ∧
    (∀ k, (tick env)^[n + k] s = (tick env)^[n] s) := by
  have hlt := tick_iterate_lt env s sess n hs hact hrem
  have hfin : (tick env)^[n] s = expiredState env s sess := by
    cases n with
    | zero => omega
    | succ m =>
      rw [Function.iterate_succ_apply', hlt m (by omega)]
      rw [show m + 1 - m = 1 from by omega]
      exact tick_setRemaining_one env s sess hact
  refine ⟨?_, ⟨hfin, ?_, rfl⟩, ?_⟩
  · intro k hk
    rw [hlt k hk]
    exact hres
  · rw [hfin]; rfl
  · intro k
    induction k with
    | zero => rfl
    | succ k ih =>
      rw [show n + (k + 1) = (n + k) + 1 from rfl, Function.iterate_succ_apply', ih, hfin]
      exact tick_expiredState env s sess

/-- A running 10-second exam session over one question, nothing submitted. -/
def timerSession10 : PracticeSession :=
  { id := "s", startTime := 0, endTime := none, mode := .exam
    configuration := { cfg0 with timerEnabled := true }
    progress := progress0, results := none
    timer := { totalTimeAllowed := 10, timeRemaining := 10, isActive := true
               questionStartTime := 0 } }

def timedState : PracticeContextState :=
  { stateAt [qAC] [] with session := some timerSession10 }

theorem C7_witness :
    (∀ k, k < 10 → sessionResultsOf ((tick env0)^[k] timedState) = none) ∧
    ((tick env0)^[10] timedState = expiredState env0 timedState timerSession10 ∧
      sessionResultsOf ((tick env0)^[10] timedState) =
        some (calculateResults timerSession10.progress.questionResults
          timedState.questions.current) ∧
      (calculateResults timerSession10.progress.questionResults
          timedState.questions.current).totalQuestions =
        (calculateResults timerSession10.progress.questionResults
          timedState.questions.current).questionResults.length) ∧
    (∀ k, (tick env0)^[10 + k] timedState = (tick env0)^[10] timedState) :=
  C7_timer_forces_single_finish env0 timedState timerSession10 10 rfl rfl rfl rfl
    (by decide)

/-! ## Topic aggregation (C2) -/

/-- Whether `calculateResults` finds a recorded result for `q`. -/
def answeredBy (results : List QuestionResult) (q : Question) : Bool :=
  (results.find? (fun r => r.questionId == q.id)).isSome

/-- Whether the recorded result found for `q` (if any) was correct. -/
def correctBy (results : List QuestionResult) (q : Question) : Bool :=
  ((results.find? (fun r => r.questionId == q.id)).map (fun r => r.isCorrect)).getD false

/-- Questions of topic `t` that have a recorded result. -/
def topicAnsweredCount (results : List QuestionResult) (t : String)
    (qs : List Question) : Nat :=
  (qs.filter (fun q => q.topic == t && answeredBy results q)).length

/-- Questions of topic `t` whose recorded result is correct. -/
def topicCorrectCount (results : List QuestionResult) (t : String)
    (qs : List Question) : Nat :=
  (qs.filter (fun q => q.topic == t && correctBy results q)).length

/-- The accumulator entry for topic `t` (first match, as in the JS object). -/
def lookupTopic (l : List TopicResult) (t : String) : Option TopicResult :=
  l.find? (fun tr => tr.topic == t)

/-- `c` more answered questions, `k` of them correct, folded into an entry,
with the score recomputed from the final counters. -/
def mkEntry (e : TopicResult) (c k : Nat) : TopicResult :=
  { topic := e.topic
    totalQuestions := e.totalQuestions + c
    correctAnswers := e.correctAnswers + k
    score := round ((((e.correctAnswers + k : Nat) : ℚ)) /
      (((e.totalQuestions + c : Nat) : ℚ)) * 100) }

theorem bumpTopic_eq_mkEntry (b : Bool) (e : TopicResult) :
    bumpTopic b e = mkEntry e 1 (if b then 1 else 0) := rfl

theorem mkEntry_mkEntry (e : TopicResult) (c k c' k' : Nat) :
    mkEntry (mkEntry e c k) c' k' = mkEntry e (c + c') (k + k') := by
  simp [mkEntry, Nat.add_assoc]

theorem lookupTopic_upsert_self (l : List TopicResult) (t : String) (b : Bool) :
    lookupTopic (upsertTopic t b l) t =
      some (bumpTopic b ((lookupTopic l t).getD (emptyTopicResult t))) := by
  induction l with
  | nil => simp [upsertTopic, lookupTopic, bumpTopic, emptyTopicResult]
  | cons tr rest ih =>
    by_cases h : tr.topic = t
    · simp [upsertTopic, h, lookupTopic, bumpTopic]
    · simp only [upsertTopic, if_neg h]
      have h' : (tr.topic == t) = false := by simp [h]
      simp only [lookupTopic, List.find?] at ih ⊢
      rw [h']
      exact ih

theorem lookupTopic_upsert_ne (l : List TopicResult) (tn t : String) (b : Bool)
    (h : ¬ tn = t) :
    lookupTopic (upsertTopic tn b l) t = lookupTopic l t := by
  induction l with
  | nil => simp [upsertTopic, lookupTopic, bumpTopic, emptyTopicResult, h]
  | cons tr rest ih =>
    by_cases htr : tr.topic = tn
    · have hu : upsertTopic tn b (tr :: rest) = bumpTopic b tr :: rest := by
        simp [upsertTopic, htr]
      have h1 : ¬ ((fun e : TopicResult => e.topic == t) (bumpTopic b tr) = true) := by
        simp [bumpTopic, htr, h]
      have h2 : ¬ ((fun e : TopicResult => e.topic == t) tr = true) := by
        simp [htr, h]
      unfold lookupTopic
      rw [hu, List.find?_cons_of_neg rest h1, List.find?_cons_of_neg rest h2]
    · simp only [upsertTopic, if_neg htr]
      by_cases h2 : tr.topic = t
      · simp [lookupTopic, List.find?, h2]
      · have h2' : (tr.topic == t) = false := by simp [h2]
        simp only [lookupTopic, List.find?] at ih ⊢
        rw [h2']
        exact ih

theorem topicCorrectCount_le (results : List QuestionResult) (t : String)
    (qs : List Question) :
    topicCorrectCount results t qs ≤ topicAnsweredCount results t qs := by
  refine (List.monotone_filter_right qs ?_).length_le
  intro q hq
  simp only [Bool.and_eq_true] at hq ⊢
  refine ⟨hq.1, ?_⟩
  cases hf : results.find? (fun r => r.questionId == q.id) with
  | none => rw [correctBy, hf] at hq; simp at hq
  | some r => simp [answeredBy, hf]

/-- Characterisation of the topic accumulator: after folding `topicStep` over
`qs`, the entry for topic `t` carries the counts of answered (and correct)
questions of that topic, merged into whatever `acc` already held. -/
theorem foldl_topicStep_lookup (results : List QuestionResult) :
    ∀ (qs : List Question) (acc : List TopicResult) (t : String),
      lookupTopic (qs.foldl (topicStep results) acc) t =
        if topicAnsweredCount results t qs = 0 then lookupTopic acc t
        else some (mkEntry ((lookupTopic acc t).getD (emptyTopicResult t))
          (topicAnsweredCount results t qs) (topicCorrectCount results t qs)) := by
  intro qs
  induction qs with
  | nil =>
    intro acc t
    simp [topicAnsweredCount]
  | cons q rest ih =>
    intro acc t
    rw [List.foldl_cons]
    cases hfind : results.find? (fun r => r.questionId == q.id) with
    | none =>
      have hstep : topicStep results acc q = acc := by simp [topicStep, hfind]
      have hans : answeredBy results q = false := by simp [answeredBy, hfind]
      have hcor : correctBy results q = false := by simp [correctBy, hfind]
      have h1 : topicAnsweredCount results t (q :: rest) =
          topicAnsweredCount results t rest := by
        simp [topicAnsweredCount, hans]
      have h2 : topicCorrectCount results t (q :: rest) =
          topicCorrectCount results t rest := by
        simp [topicCorrectCount, hcor]
      rw [hstep, ih acc t, h1, h2]
    | some r =>
      have hstep : topicStep results acc q = upsertTopic q.topic r.isCorrect acc := by
        simp [topicStep, hfind]
      have hans : answeredBy results q = true := by simp [answeredBy, hfind]
      have hcor : correctBy results q = r.isCorrect := by simp [correctBy, hfind]
      rw [hstep, ih (upsertTopic q.topic r.isCorrect acc) t]
      by_cases ht : q.topic = t
      · have h1 : topicAnsweredCount results t (q :: rest) =
            topicAnsweredCount results t rest + 1 := by
          simp [topicAnsweredCount, hans, ht, List.filter_cons]
        have h2 : topicCorrectCount results t (q :: rest) =
            topicCorrectCount results t rest + (if r.isCorrect then 1 else 0) := by
          by_cases hc : r.isCorrect <;>
            simp [topicCorrectCount, hcor, ht, hc, List.filter_cons]
        have hacc : lookupTopic (upsertTopic q.topic r.isCorrect acc) t =
            some (bumpTopic r.isCorrect ((lookupTopic acc t).getD (emptyTopicResult t))) := by
          rw [ht]
          exact lookupTopic_upsert_self acc t r.isCorrect
        rw [hacc, h1, h2]
        by_cases h0 : topicAnsweredCount results t rest = 0
        · have hc0 : topicCorrectCount results t rest = 0 :=
            Nat.le_zero.mp (h0 ▸ topicCorrectCount_le results t rest)
          rw [if_pos h0, if_neg (by omega), hc0, h0]
          rw [bumpTopic_eq_mkEntry]
          simp
        · rw [if_neg h0, if_neg (by omega)]
          rw [Option.getD_some, bumpTopic_eq_mkEntry, mkEntry_mkEntry]
          congr 2 <;> omega
      · have hbeq : (q.topic == t) = false := by simp [ht]
        have h1 : topicAnsweredCount results t (q :: rest) =
            topicAnsweredCount results t rest := by
          simp [topicAnsweredCount, hbeq, List.filter_cons]
        have h2 : topicCorrectCount results t (q :: rest) =
            topicCorrectCount results t rest := by
          simp [topicCorrectCount, hbeq, List.filter_cons]
        have hacc : lookupTopic (upsertTopic q.topic r.isCorrect acc) t =
            lookupTopic acc t := lookupTopic_upsert_ne acc q.topic t r.isCorrect ht
        rw [hacc, h1, h2]

/-- Second question of topic "X" (will stay unanswered in the C2 scenario). -/
def qX2 : Question :=
  { id := 2, questionNumber := 2, topic := "X", question := "q2", note := none
    options := [mkOpt "A" true, mkOpt "B" false]
    correctAnswers := ["A"], metadata := meta0 }

/-- Question of topic "Y". -/
def qY : Question :=
  { id := 3, questionNumber := 3, topic := "Y", question := "q3", note := none
    options := [mkOpt "A" true, mkOpt "B" false]
    correctAnswers := ["A"], metadata := meta0 }

def exQuestions : List Question := [qAC, qX2, qY]

def rX1 : QuestionResult :=
  { questionId := 1, selectedAnswers := ["A", "C"], correctAnswers := ["A", "C"]
    isCorrect := true, timeSpent := 60, attempts := 1 }

def rY : QuestionResult :=
  { questionId := 3, selectedAnswers := ["A"], correctAnswers := ["A"]
    isCorrect := true, timeSpent := 60, attempts := 1 }

def exResults : List QuestionResult := [rX1, rY]

/-- C2 counterexample: in the 3-question session of the claim (topic X: one
submitted-correct, one never submitted; topic Y: one submitted-correct), the
topic entry for X has `totalQuestions = 1`, not the claimed 2 — the unanswered
question is skipped entirely by `calculateResults`. -/
theorem C2_counterexample :
    (lookupTopic ((calculateResults exResults exQuestions).topicResults) "X").map
        (fun tr => (tr.totalQuestions, tr.correctAnswers)) = some (1, 1) ∧
    ¬ (lookupTopic ((calculateResults exResults exQuestions).topicResults) "X").map
        (fun tr => (tr.totalQuestions, tr.correctAnswers)) = some (2, 1) :=
  ⟨rfl, by decide⟩

/-- C2 amended: a `TopicResult`'s `totalQuestions` counts only the questions
of that topic that have a submitted result (presented-but-unanswered questions
contribute to neither the denominator nor the correct count — no topic entry
exists at all if none of its questions were answered), `correctAnswers` counts
the correct submitted ones, and the score is the rounded percentage of those
two counts.  In the claim's example, topic X reports
`{totalQuestions 1, correctCount 1, scorePercent 100}` (not `{2, 1, 50}`) and
topic Y reports `{1, 1, 100}`. -/
theorem C2_topic_totals_count_only_answered :
    (∀ (results : List QuestionResult) (questions : List Question) (t : String),
      lookupTopic ((calculateResults results questions).topicResults) t =
        if topicAnsweredCount results t questions = 0 then none
        else some
          { topic := t
            totalQuestions := topicAnsweredCount results t questions
            correctAnswers := topicCorrectCount results t questions
            score := round (((topicCorrectCount results t questions : ℚ) /
              (topicAnsweredCount results t questions : ℚ)) * 100) }) ∧
    lookupTopic ((calculateResults exResults exQuestions).topicResults) "X" =
      some { topic := "X", totalQuestions := 1, correctAnswers := 1, score := 100 } ∧
    lookupTopic ((calculateResults exResults exQuestions).topicResults) "Y" =
      some { topic := "Y", totalQuestions := 1, correctAnswers := 1, score := 100 } := by
  have main : ∀ (results : List QuestionResult) (questions : List Question) (t : String),
      lookupTopic ((calculateResults results questions).topicResults) t =
        if topicAnsweredCount results t questions = 0 then none
        else some
          { topic := t
            totalQuestions := topicAnsweredCount results t questions
            correctAnswers := topicCorrectCount results t questions
            score := round (((topicCorrectCount results t questions : ℚ) /
              (topicAnsweredCount results t questions : ℚ)) * 100) } := by
    intro results questions t
    have h := foldl_topicStep_lookup results questions [] t
    rw [show (calculateResults results questions).topicResults =
      questions.foldl (topicStep results) [] from rfl, h]
    by_cases h0 : topicAnsweredCount results t questions = 0
    · rw [if_pos h0, if_pos h0]; rfl
    · rw [if_neg h0, if_neg h0]
      congr 1
      simp [mkEntry, emptyTopicResult, lookupTopic]
  refine ⟨main, ?_, ?_⟩
  · rw [main exResults exQuestions "X",
      show topicAnsweredCount exResults "X" exQuestions = 1 from rfl,
      show topicCorrectCount exResults "X" exQuestions = 1 from rfl]
    simp only [one_ne_zero, if_false, Option.some.injEq, TopicResult.mk.injEq]
    refine ⟨trivial, trivial, trivial, ?_⟩
    norm_num [round_eq]
  · rw [main exResults exQuestions "Y",
      show topicAnsweredCount exResults "Y" exQuestions = 1 from rfl,
      show topicCorrectCount exResults "Y" exQuestions = 1 from rfl]
    simp only [one_ne_zero, if_false, Option.some.injEq, TopicResult.mk.injEq]
    refine ⟨trivial, trivial, trivial, ?_⟩
    norm_num [round_eq]
